import Mathlib

/-!
Verification development for the CachyOS kernel-manager sources
(`src/km-window.cpp`, `src/schedext-window.cpp`).

The embedding is shallow: each C++ function relevant to the properties is
translated into a Lean definition over explicit state records. External
effects (file reads, `utils::exec` outputs, `QProcess::startDetached`
launches, alpm transaction operations, stderr logging) are modelled as
explicit inputs or as event lists in the result, so every definition is
an executable function of its inputs.
-/

/-! ## Kernel data model (`kernel.hpp` collaborators, as used by `km-window.cpp`)

A `Kernel` carries what `km-window.cpp` reads from it: the raw package
name, version, category, installed / update-available flags, the
installed-db and repo names, and the success of the `install()` /
`remove()` alpm calls (modelled as boolean fields, since the alpm
outcome is an external effect). -/

structure Kernel where
  raw : String
  version : String
  category : String
  installed : Bool
  update_available : Bool
  installed_db : String
  repo : String
  install_ok : Bool
  remove_ok : Bool
deriving DecidableEq, Repr

/-- Message printed to stderr by `install_packages` on a failed
`kernel->install()` (the alpm strerror suffix is elided). -/
def install_fail_msg : String := "failed to add package to be installed"

/-- Message printed to stderr by `remove_packages` on a failed
`kernel->remove()` (the alpm strerror suffix is elided). -/
def remove_fail_msg : String := "failed to add package to be removed"

/-- `ranges::find_if(kernels, [selected](auto&& el) \x7b return el.get_raw() == selected; \x7d)`
from `install_packages` / `remove_packages` (km-window.cpp lines 39, 51). -/
def find_kernel (kernels : List Kernel) (selected : String) : Option Kernel :=
  kernels.find? (fun el => el.raw == selected)

/-- The body of the `install_packages` loop for one element of
`selected_list` (km-window.cpp lines 38-45): the stderr messages it
produces. -/
def install_step (kernels : List Kernel) (selected : String) : List String :=
  match find_kernel kernels selected with
  | some kernel =>
      if !kernel.installed || kernel.update_available then
        if !kernel.install_ok then [install_fail_msg] else []
      else []
  | none => []

/-- The body of the `remove_packages` loop for one element of
`selected_list` (km-window.cpp lines 50-56): the stderr messages it
produces. -/
def remove_step (kernels : List Kernel) (selected : String) : List String :=
  match find_kernel kernels selected with
  | some kernel =>
      if kernel.installed then
        if !kernel.remove_ok then [remove_fail_msg] else []
      else []
  | none => []

/-- `install_packages` (km-window.cpp lines 37-47): iterates over the whole
selected list, logging each failure to stderr, and returns `true`.
Result: (stderr log, return value). -/
def install_packages (kernels : List Kernel) : List String → List String × Bool
  | [] => ([], true)
  | selected :: rest =>
      ((install_step kernels selected) ++ (install_packages kernels rest).fst, true)

/-- `remove_packages` (km-window.cpp lines 49-60): iterates over the whole
selected list, logging each failure to stderr, and returns `true`.
Result: (stderr log, return value). -/
def remove_packages (kernels : List Kernel) : List String → List String × Bool
  | [] => ([], true)
  | selected :: rest =>
      ((remove_step kernels selected) ++ (remove_packages kernels rest).fst, true)

/-! ## MainWindow state (`km-window.hpp` fields used by `km-window.cpp`) -/

/-- The `MainWindow` fields touched by the worker lambda, `on_execute` and
`closeEvent`: the two atomic flags, the change list, the enabled state of
the `ok` button, the kernels, whether the alpm handle was released, and
an event log recording install/remove stderr output and the commit. -/
structure KMState where
  m_running : Bool
  m_thread_running : Bool
  m_change_list : List String
  ok_enabled : Bool
  kernels : List Kernel
  handle_released : Bool
  log : List String
deriving DecidableEq, Repr

/-- The predicate passed to `m_cv.wait` (km-window.cpp line 75):
`m_running.load()`. -/
def cv_predicate (s : KMState) : Bool := s.m_running

/-- The guard checked after waking (km-window.cpp line 77):
`m_running.load() && m_thread_running.load()`. -/
def worker_guard (s : KMState) : Bool := s.m_running && s.m_thread_running

/-- The `while` condition of the worker loop (km-window.cpp line 71):
`m_thread_running.load()`. -/
def loop_continues (s : KMState) : Bool := s.m_thread_running

/-- One wake of the worker lambda after the condition variable fires
(km-window.cpp lines 77-91): when the guard holds it disables `ok`,
snapshots `m_change_list`, runs `install_packages` then
`remove_packages` on the snapshot, commits the transaction, clears
`m_running` and re-enables `ok`; otherwise it does nothing. -/
def worker_body (s : KMState) : KMState :=
  if worker_guard s then
    let change_list := s.m_change_list
    let inst := install_packages s.kernels change_list
    let rem := remove_packages s.kernels change_list
    { s with
      ok_enabled := true
      log := s.log ++ inst.fst ++ rem.fst ++ ["commit_transaction"]
      m_running := false }
  else s

/-- `MainWindow::closeEvent` (km-window.cpp lines 202-213): stores `true`
into `m_running`, `false` into `m_thread_running`, notifies the condition
variable and releases the alpm handle. -/
def closeEvent (s : KMState) : KMState :=
  { s with
    m_running := true
    m_thread_running := false
    handle_released := true }

/-- `MainWindow::on_execute` (km-window.cpp lines 227-234): returns at once
when `m_running` is already set; otherwise stores `true` into both flags,
notifies the condition variable and starts the worker thread. -/
def on_execute (s : KMState) : KMState :=
  if s.m_running then s
  else { s with m_running := true, m_thread_running := true }

/-! ## Kernel tree and change list (`km-window.cpp` UI logic) -/

/-- One row of `treeKernels`: its `PkgName` text, its `Immutable` column
and its check state (`Qt::Checked` as `true`). -/
structure TreeItem where
  name : String
  immutable : Bool
  checked : Bool
deriving DecidableEq, Repr

/-- The window state seen by `buildChangeList`: the tree items, the
change list and the `ok` button. -/
structure WindowState where
  items : List TreeItem
  m_change_list : List String
  ok_enabled : Bool
deriving DecidableEq, Repr

/-- `MainWindow::buildChangeList` (km-window.cpp lines 181-200) applied to
one item: an unchecked immutable item is appended (early return); else a
checked item is appended and an unchecked one removed via
`QList::removeOne` (first occurrence, `List.erase`); finally `ok` is
disabled when the list became empty. -/
def buildChangeList (item : TreeItem) (s : WindowState) : WindowState :=
  if item.immutable && !item.checked then
    { s with ok_enabled := true, m_change_list := s.m_change_list ++ [item.name] }
  else
    let s1 :=
      if item.checked then
        { s with ok_enabled := true, m_change_list := s.m_change_list ++ [item.name] }
      else
        { s with m_change_list := s.m_change_list.erase item.name }
    if s1.m_change_list.isEmpty then { s1 with ok_enabled := false } else s1

/-- `MainWindow::checkUncheckItem` (km-window.cpp lines 163-171) on the
item at index `i`, followed by the `itemChanged` signal calling
`item_changed` and hence `buildChangeList` on that item
(km-window.cpp lines 174-178): flips the check state and rebuilds the
change list. Out-of-range `i` models `currentItem() == nullptr`
(early return). -/
def checkUncheckItem (i : Nat) (s : WindowState) : WindowState :=
  match s.items[i]? with
  | none => s
  | some item =>
      let item' : TreeItem := { item with checked := !item.checked }
      buildChangeList item' { s with items := s.items.set i item' }

/-- A sequence of user toggles applied in order. -/
def applyToggles (s : WindowState) (toggles : List Nat) : WindowState :=
  toggles.foldl (fun st i => checkUncheckItem i st) s

/-- The tree item created for one kernel by the `MainWindow` constructor
(km-window.cpp lines 111-126): unchecked and mutable, except an installed
kernel whose installed-db matches its repo (or is empty), which gets the
`Immutable` column set to `true` and starts checked; a db/repo mismatch
`continue`s, leaving the item as initialised. -/
def initItem (k : Kernel) : TreeItem :=
  if k.installed then
    if !k.installed_db.isEmpty && k.installed_db != k.repo then
      { name := k.raw, immutable := false, checked := false }
    else
      { name := k.raw, immutable := true, checked := true }
  else
    { name := k.raw, immutable := false, checked := false }

/-- The window state after the `MainWindow` constructor: the populated
tree and an empty change list. -/
def initState (kernels : List Kernel) : WindowState :=
  { items := kernels.map initItem, m_change_list := [], ok_enabled := true }

/-- The names of the checked, non-immutable items of an item list. -/
def checkedNames (items : List TreeItem) : List String :=
  (items.filter (fun it => it.checked && !it.immutable)).map TreeItem.name

/-- The names of the currently checked, non-immutable items. -/
def checkedNonImmutable (s : WindowState) : List String :=
  checkedNames s.items

/-- The property asserted of the change list: no duplicates, and
membership coincides with the currently checked, non-immutable items. -/
def changeListMatchesChecked (s : WindowState) : Prop :=
  s.m_change_list.Nodup ∧
    ∀ n, n ∈ s.m_change_list ↔ n ∈ checkedNonImmutable s

/-! ## Scheduler window (`schedext-window.cpp`) -/

/-- `read_kernel_file` (schedext-window.cpp lines 54-68) as a function of
the file's first line: `none` models a file that could not be opened or
whose `getline` failed, both returning the empty string. -/
def read_kernel_file (file_first_line : Option String) : String :=
  match file_first_line with
  | none => ""
  | some line => line

/-- `get_current_scheduler` (schedext-window.cpp lines 70-84) as a
function of the first lines of `/sys/kernel/sched_ext/state` and
`/sys/kernel/sched_ext/root/ops`: any state other than `"enabled"` is
returned as read; otherwise an empty ops read yields `"unknown"`, else
the ops line. -/
def get_current_scheduler (state_file ops_file : Option String) : String :=
  let current_state := read_kernel_file state_file
  if current_state != "enabled" then current_state
  else
    let current_sched := read_kernel_file ops_file
    if current_sched.isEmpty then "unknown"
    else current_sched

/-- `is_scx_service_enabled` (schedext-window.cpp lines 86-89) as a
function of the output of `systemctl is-enabled scx`. -/
def is_scx_service_enabled (exec_output : String) : Bool :=
  exec_output == "enabled"

/-- `is_scx_service_active` (schedext-window.cpp lines 91-94) as a
function of the output of `systemctl is-active scx`. -/
def is_scx_service_active (exec_output : String) : Bool :=
  exec_output == "active"

/-- The enabled states of the two buttons of `SchedExtWindow`. -/
structure SchedExtUI where
  disable_enabled : Bool
  apply_enabled : Bool
deriving DecidableEq, Repr

/-- A `QProcess::startDetached` invocation: program and arguments. -/
structure Launched where
  program : String
  args : List String
deriving DecidableEq, Repr

/-- `SchedExtWindow::on_disable` (schedext-window.cpp lines 140-156):
disables both buttons, launches `systemctl disable --now scx` through
pkexec when the service is enabled, else `systemctl stop scx` when it is
active, else nothing, then re-enables both buttons. Inputs are the
outputs of the two `systemctl` queries; result: (final UI state, the
detached processes launched). -/
def on_disable (is_enabled_output is_active_output : String) (ui : SchedExtUI) :
    SchedExtUI × List Launched :=
  let ui1 : SchedExtUI := { ui with disable_enabled := false }
  let ui2 : SchedExtUI := { ui1 with apply_enabled := false }
  let launched : List Launched :=
    if is_scx_service_enabled is_enabled_output then
      [{ program := "/usr/bin/pkexec",
         args := ["/usr/bin/systemctl", "disable", "--now", "scx"] }]
    else if is_scx_service_active is_active_output then
      [{ program := "/usr/bin/pkexec",
         args := ["/usr/bin/systemctl", "stop", "scx"] }]
    else []
  let ui3 : SchedExtUI := { ui2 with disable_enabled := true }
  let ui4 : SchedExtUI := { ui3 with apply_enabled := true }
  (ui4, launched)

/-- Whether a character list begins with the given pattern (helper for
modelling `std::string::find`). -/
def beginsWith : List Char → List Char → Bool
  | _, [] => true
  | [], _ :: _ => false
  | c :: cs, p :: ps => c == p && beginsWith cs ps

/-- Whether the pattern occurs anywhere in the character list (models
`std::string::find(pattern) != npos`). -/
def containsPattern : List Char → List Char → Bool
  | [], p => p.isEmpty
  | c :: cs, p => beginsWith (c :: cs) p || containsPattern cs p

/-- `is_flags_commented` (schedext-window.cpp lines 170-175) as a function
of the contents of `/etc/default/scx`: whether `#SCX_FLAGS=` occurs in
it. -/
def is_flags_commented (scx_conf_content : String) : Bool :=
  containsPattern scx_conf_content.toList "#SCX_FLAGS=".toList

/-- `get_scx_flags_sed` (schedext-window.cpp lines 176-189): the sed
fragment for the flags line, from the trimmed flags text and whether the
flags line is currently commented (the `fmt::format` placeholders are
expanded by concatenation). -/
def get_scx_flags_sed (sched_flags_text : String) (flags_commented : Bool) : String :=
  if sched_flags_text.isEmpty && !flags_commented then
    "-e 's/SCX_FLAGS=/#SCX_FLAGS=/'"
  else if !sched_flags_text.isEmpty && flags_commented then
    "-e \"s/.*SCX_FLAGS=.*/SCX_FLAGS='" ++ sched_flags_text ++ "'/\""
  else if !sched_flags_text.isEmpty && !flags_commented then
    "-e \"s/SCX_FLAGS=.*/SCX_FLAGS='" ++ sched_flags_text ++ "'/\""
  else
    ""

/-- The `service_cmd` lambda in `on_apply` (schedext-window.cpp lines
162-168). -/
def service_cmd (is_enabled_output : String) : String :=
  if !is_scx_service_enabled is_enabled_output then "enable --now"
  else "restart"

/-- The `sed_cmd` string built by `on_apply` (schedext-window.cpp line
198), with the `fmt::format` placeholders expanded by concatenation. -/
def sed_cmd (current_selected scx_flags_sed svc : String) : String :=
  "sed -e 's/SCX_SCHEDULER=.*/SCX_SCHEDULER=" ++ current_selected ++ "/' "
    ++ scx_flags_sed ++ " -i /etc/default/scx && systemctl " ++ svc ++ " scx"

/-- `SchedExtWindow::on_apply` (schedext-window.cpp lines 158-204):
disables both buttons, builds the sed fragment from the trimmed flags
text and the commented state of the config, launches the composite
command through pkexec, and re-enables both buttons. Inputs: the
`systemctl is-enabled` output, the `/etc/default/scx` content, the raw
flags-edit text and the combo-box selection. -/
def on_apply (is_enabled_output scx_conf_content flags_edit_text current_selected : String)
    (ui : SchedExtUI) : SchedExtUI × List Launched :=
  let ui1 : SchedExtUI := { ui with disable_enabled := false }
  let ui2 : SchedExtUI := { ui1 with apply_enabled := false }
  let svc := service_cmd is_enabled_output
  let flags_commented := is_flags_commented scx_conf_content
  let sched_flags_text := flags_edit_text.trim
  let scx_flags_sed := get_scx_flags_sed sched_flags_text flags_commented
  let cmd := sed_cmd current_selected scx_flags_sed svc
  let launched : List Launched :=
    [{ program := "/usr/bin/pkexec", args := ["/usr/bin/bash", "-c", cmd] }]
  let ui3 : SchedExtUI := { ui2 with disable_enabled := true }
  let ui4 : SchedExtUI := { ui3 with apply_enabled := true }
  (ui4, launched)

/-! ## Concrete fixtures (used by witnesses and counterexamples) -/

/-- An installed kernel whose installed-db matches its repo: its tree
item is immutable and starts checked. -/
def sampleInstalledKernel : Kernel :=
  { raw := "linux-cachyos", version := "6.10", category := "stable",
    installed := true, update_available := false, installed_db := "",
    repo := "core", install_ok := true, remove_ok := true }

/-- A not-installed kernel: its tree item is mutable and starts
unchecked. -/
def sampleFreeKernel : Kernel :=
  { raw := "linux-cachyos-bore", version := "6.11", category := "testing",
    installed := false, update_available := false, installed_db := "",
    repo := "extra", install_ok := true, remove_ok := true }

/-- A not-installed kernel whose `install()` call fails. -/
def sampleFailInstallKernel : Kernel :=
  { raw := "linux-cachyos-rc", version := "6.12", category := "rc",
    installed := false, update_available := false, installed_db := "",
    repo := "extra", install_ok := false, remove_ok := true }

/-- An installed kernel whose `remove()` call fails. -/
def sampleFailRemoveKernel : Kernel :=
  { raw := "linux-cachyos-lts", version := "6.6", category := "lts",
    installed := true, update_available := false, installed_db := "",
    repo := "core", install_ok := true, remove_ok := false }

/-- A `MainWindow` state in which a transaction has been confirmed: both
flags set, one kernel in the change list. -/
def sampleBusyState : KMState :=
  { m_running := true, m_thread_running := true,
    m_change_list := ["linux-cachyos"], ok_enabled := true,
    kernels := [sampleInstalledKernel], handle_released := false, log := [] }

/-! ## Helper lemmas -/

/-- `install_packages` always returns `true`. -/
lemma install_packages_snd (kernels : List Kernel) (l : List String) :
    (install_packages kernels l).snd = true := by
  cases l <;> rfl

/-- `remove_packages` always returns `true`. -/
lemma remove_packages_snd (kernels : List Kernel) (l : List String) :
    (remove_packages kernels l).snd = true := by
  cases l <;> rfl

/-- The stderr log of `install_packages` splits over list concatenation:
the loop keeps going after any prefix of the selected list. -/
lemma install_packages_fst_append (kernels : List Kernel) (l1 l2 : List String) :
    (install_packages kernels (l1 ++ l2)).fst =
      (install_packages kernels l1).fst ++ (install_packages kernels l2).fst := by
  induction l1 with
  | nil => rfl
  | cons x xs ih => simp [install_packages, ih]

/-- The stderr log of `remove_packages` splits over list concatenation:
the loop keeps going after any prefix of the selected list. -/
lemma remove_packages_fst_append (kernels : List Kernel) (l1 l2 : List String) :
    (remove_packages kernels (l1 ++ l2)).fst =
      (remove_packages kernels l1).fst ++ (remove_packages kernels l2).fst := by
  induction l1 with
  | nil => rfl
  | cons x xs ih => simp [remove_packages, ih]

/-! ## Claims about the worker / transaction coordinator -/

/-- C1 (counterexample): after the worker body runs on a confirmed
transaction with change list `["linux-cachyos"]`, the change list is not
empty — committing a transaction does not clear `m_change_list`. -/
theorem C1_counterexample :
    (worker_body sampleBusyState).m_change_list ≠ [] := by
  decide

/-- C1 (amended): after the worker executes a confirmed transaction
(guard true: snapshot, installs, removals, commit), `m_running` is
cleared and the `ok` control re-enabled, but `m_change_list` is left
exactly as it was — the change list is not cleared by the commit. -/
theorem C1_commit_leaves_change_list (s : KMState) (h : worker_guard s = true) :
    (worker_body s).m_change_list = s.m_change_list ∧
    (worker_body s).m_running = false ∧
    (worker_body s).ok_enabled = true := by
  simp [worker_body, h]

/-- C1 (witness): the amended statement at the concrete busy state. -/
theorem C1_commit_leaves_change_list_witness :
    (worker_body sampleBusyState).m_change_list = sampleBusyState.m_change_list ∧
    (worker_body sampleBusyState).m_running = false ∧
    (worker_body sampleBusyState).ok_enabled = true :=
  C1_commit_leaves_change_list sampleBusyState (by decide)

/-- C4: after `closeEvent` stores `true` into `m_running` and `false`
into `m_thread_running`, the condition-variable predicate is satisfied
(the worker wakes), the install/remove/commit guard is false so the body
leaves the state untouched, and the `while` condition is false so the
loop exits rather than rewaiting. -/
theorem C4_close_event_stops_worker (s : KMState) :
    cv_predicate (closeEvent s) = true ∧
    worker_guard (closeEvent s) = false ∧
    worker_body (closeEvent s) = closeEvent s ∧
    loop_continues (closeEvent s) = false := by
  refine ⟨rfl, ?_, ?_, rfl⟩ <;>
    simp [cv_predicate, worker_guard, worker_body, loop_continues, closeEvent]

/-- C6: `on_execute` invoked while `m_running` is already true returns
immediately with the state — flags, change list, everything —
unchanged. -/
theorem C6_on_execute_noop_when_running (s : KMState) (h : s.m_running = true) :
    on_execute s = s := by
  simp [on_execute, h]

/-- C6 (witness): the no-op at the concrete busy state. -/
theorem C6_on_execute_noop_witness : on_execute sampleBusyState = sampleBusyState :=
  C6_on_execute_noop_when_running sampleBusyState rfl

/-- C9: `install_packages` and `remove_packages` are best-effort: both
always return `true`, the stderr log splits over any decomposition of
the selected list (no failure aborts the batch — every element is
processed), and a package whose applicable alpm call fails contributes
its failure message to the log wherever it sits in the list. -/
theorem C9_best_effort_batch (kernels : List Kernel) (l1 l2 : List String)
    (selected : String) :
    (install_packages kernels (l1 ++ l2)).snd = true ∧
    (remove_packages kernels (l1 ++ l2)).snd = true ∧
    (install_packages kernels (l1 ++ l2)).fst =
      (install_packages kernels l1).fst ++ (install_packages kernels l2).fst ∧
    (remove_packages kernels (l1 ++ l2)).fst =
      (remove_packages kernels l1).fst ++ (remove_packages kernels l2).fst ∧
    (∀ k, find_kernel kernels selected = some k →
      (!k.installed || k.update_available) = true → k.install_ok = false →
      install_fail_msg ∈ (install_packages kernels (l1 ++ selected :: l2)).fst) ∧
    (∀ k, find_kernel kernels selected = some k →
      k.installed = true → k.remove_ok = false →
      remove_fail_msg ∈ (remove_packages kernels (l1 ++ selected :: l2)).fst) := by
  refine ⟨install_packages_snd .., remove_packages_snd ..,
    install_packages_fst_append .., remove_packages_fst_append .., ?_, ?_⟩
  · intro k hfind hcond hok
    rw [install_packages_fst_append]
    simp [install_packages, install_step, hfind, hcond, hok]
  · intro k hfind hinst hok
    rw [remove_packages_fst_append]
    simp [remove_packages, remove_step, hfind, hinst, hok]

/-- C9 (witness): concrete failing install and remove, each logged while
the batch still returns `true`. -/
theorem C9_best_effort_batch_witness :
    install_fail_msg ∈
      (install_packages [sampleFailInstallKernel]
        ([] ++ "linux-cachyos-rc" :: [])).fst ∧
    remove_fail_msg ∈
      (remove_packages [sampleFailRemoveKernel]
        ([] ++ "linux-cachyos-lts" :: [])).fst :=
  ⟨(C9_best_effort_batch [sampleFailInstallKernel] [] [] "linux-cachyos-rc").2.2.2.2.1
      sampleFailInstallKernel (by decide) (by decide) (by decide),
   (C9_best_effort_batch [sampleFailRemoveKernel] [] [] "linux-cachyos-lts").2.2.2.2.2
      sampleFailRemoveKernel (by decide) (by decide) (by decide)⟩

/-! ## Claims about the scheduler window -/

/-- C3 (counterexample): when the state-flag file is unreadable (the read
yields the empty string), `get_current_scheduler` does not return
`"unknown"` — it returns the empty string itself. -/
theorem C3_counterexample :
    get_current_scheduler none (some "scx_rusty") ≠ "unknown" := by
  decide

/-- C3 (amended): on partial failure `get_current_scheduler` falls back
as follows: a failed read of the ops file while the state reads
`"enabled"` yields the sentinel `"unknown"`, but a failed read of the
state-flag file yields the empty string (the raw failed read), not
`"unknown"`. -/
theorem C3_partial_failure_fallback :
    (∀ ops_file, get_current_scheduler none ops_file = "") ∧
    get_current_scheduler (some "enabled") none = "unknown" ∧
    get_current_scheduler (some "enabled") (some "") = "unknown" :=
  ⟨fun _ => rfl, rfl, rfl⟩

/-- C7: whenever the state file reads anything other than `"enabled"`
(the empty string included), `get_current_scheduler` returns that string
unmodified, and the result does not depend on the ops file at all (it is
never read). -/
theorem C7_state_passthrough (state_file ops1 ops2 : Option String)
    (h : read_kernel_file state_file ≠ "enabled") :
    get_current_scheduler state_file ops1 = read_kernel_file state_file ∧
    get_current_scheduler state_file ops1 = get_current_scheduler state_file ops2 := by
  constructor <;> simp [get_current_scheduler, h]

/-- C7 (witness): the passthrough at the concrete state `"disabled"`. -/
theorem C7_state_passthrough_witness :
    get_current_scheduler (some "disabled") (some "scx_rusty") =
      read_kernel_file (some "disabled") ∧
    get_current_scheduler (some "disabled") (some "scx_rusty") =
      get_current_scheduler (some "disabled") none :=
  C7_state_passthrough (some "disabled") (some "scx_rusty") none (by decide)

/-- C8: state file reading `"enabled"` and an empty ops read yield
exactly the sentinel `"unknown"`. -/
theorem C8_enabled_empty_ops_unknown :
    get_current_scheduler (some "enabled") (some "") = "unknown" :=
  rfl

/-- C5: the sed fragment of `on_apply` — with empty trimmed flags text
and the config flags line not commented, `get_scx_flags_sed` comments
the flags line out; with non-empty trimmed flags text and the flags line
commented, it rewrites the whole line to an uncommented
`SCX_FLAGS='<text>'` assignment. -/
theorem C5_scx_flags_sed_fragments (sched_flags_text scx_conf_content : String) :
    (sched_flags_text.isEmpty = true →
      is_flags_commented scx_conf_content = false →
      get_scx_flags_sed sched_flags_text (is_flags_commented scx_conf_content) =
        "-e 's/SCX_FLAGS=/#SCX_FLAGS=/'") ∧
    (sched_flags_text.isEmpty = false →
      is_flags_commented scx_conf_content = true →
      get_scx_flags_sed sched_flags_text (is_flags_commented scx_conf_content) =
        "-e \"s/.*SCX_FLAGS=.*/SCX_FLAGS='" ++ sched_flags_text ++ "'/\"") := by
  constructor <;> intro h1 h2 <;> simp [get_scx_flags_sed, h1, h2]

/-- C5 (witness): the two fragments at concrete flag texts and config
contents. -/
theorem C5_scx_flags_sed_fragments_witness :
    get_scx_flags_sed ""
        (is_flags_commented "SCX_SCHEDULER=scx_rusty\nSCX_FLAGS='-k'") =
      "-e 's/SCX_FLAGS=/#SCX_FLAGS=/'" ∧
    get_scx_flags_sed "--slice-us 5000"
        (is_flags_commented "SCX_SCHEDULER=scx_rusty\n#SCX_FLAGS=") =
      "-e \"s/.*SCX_FLAGS=.*/SCX_FLAGS='" ++ "--slice-us 5000" ++ "'/\"" :=
  ⟨(C5_scx_flags_sed_fragments "" "SCX_SCHEDULER=scx_rusty\nSCX_FLAGS='-k'").1
      (by decide) (by decide),
   (C5_scx_flags_sed_fragments "--slice-us 5000" "SCX_SCHEDULER=scx_rusty\n#SCX_FLAGS=").2
      (by decide) (by decide)⟩

/-- C10: `on_disable` re-enables both buttons on return in every branch,
and when the scx service is neither enabled nor active it launches no
external process at all. -/
theorem C10_disable_noop_branch (is_enabled_output is_active_output : String)
    (ui : SchedExtUI)
    (h1 : is_scx_service_enabled is_enabled_output = false)
    (h2 : is_scx_service_active is_active_output = false) :
    (on_disable is_enabled_output is_active_output ui).snd = [] ∧
    ∀ e a : String, ∀ u : SchedExtUI,
      (on_disable e a u).fst.disable_enabled = true ∧
      (on_disable e a u).fst.apply_enabled = true := by
  refine ⟨?_, fun e a u => ⟨rfl, rfl⟩⟩
  simp [on_disable, h1, h2]

/-- C10 (witness): no process launched and buttons re-enabled for the
concrete outputs `"disabled"` / `"inactive"`. -/
theorem C10_disable_noop_branch_witness :
    (on_disable "disabled" "inactive"
      { disable_enabled := true, apply_enabled := true }).snd = [] ∧
    ∀ e a : String, ∀ u : SchedExtUI,
      (on_disable e a u).fst.disable_enabled = true ∧
      (on_disable e a u).fst.apply_enabled = true :=
  C10_disable_noop_branch "disabled" "inactive"
    { disable_enabled := true, apply_enabled := true } (by decide) (by decide)

lemma initItem_name (k : Kernel) : (initItem k).name = k.raw := by
  unfold initItem
  split
  · split <;> rfl
  · rfl

lemma initItem_not_checked_mutable (k : Kernel) :
    ((initItem k).checked && !(initItem k).immutable) = false := by
  unfold initItem
  split
  · split <;> rfl
  · rfl

lemma checkedNames_cons (x : TreeItem) (xs : List TreeItem) :
    checkedNames (x :: xs) =
      (if (x.checked && !x.immutable) = true then [x.name] else []) ++ checkedNames xs := by
  simp only [checkedNames, List.filter_cons]
  split <;> simp

lemma mem_checkedNames (items : List TreeItem) (n : String) :
    n ∈ checkedNames items ↔
      ∃ it, it ∈ items ∧ (it.checked && !it.immutable) = true ∧ it.name = n := by
  constructor
  · intro h
    obtain ⟨it, hit, hn⟩ := List.mem_map.mp h
    obtain ⟨hmem, hp⟩ := List.mem_filter.mp hit
    exact ⟨it, hmem, hp, hn⟩
  · rintro ⟨it, hmem, hp, hn⟩
    exact List.mem_map.mpr ⟨it, List.mem_filter.mpr ⟨hmem, hp⟩, hn⟩

lemma mem_names_of_mem_checkedNames (items : List TreeItem) (n : String)
    (h : n ∈ checkedNames items) : n ∈ items.map TreeItem.name := by
  obtain ⟨it, hmem, _, hn⟩ := (mem_checkedNames items n).mp h
  exact List.mem_map.mpr ⟨it, hmem, hn⟩

lemma checkedNames_initState (kernels : List Kernel) :
    checkedNames (kernels.map initItem) = [] := by
  have h : (kernels.map initItem).filter (fun it => it.checked && !it.immutable) = [] := by
    rw [List.filter_eq_nil_iff]
    intro a ha
    obtain ⟨k, _, rfl⟩ := List.mem_map.mp ha
    simp [initItem_not_checked_mutable]
  simp [checkedNames, h]

lemma map_set_congr {α β : Type} (l : List α) (i : Nat) (a : α) (f : α → β)
    (h : ∀ b, l[i]? = some b → f b = f a) :
    (l.set i a).map f = l.map f := by
  induction l generalizing i with
  | nil => rfl
  | cons x xs ih =>
    cases i with
    | zero =>
      have hx : f x = f a := h x (by simp)
      simp [List.set, hx]
    | succ j =>
      simp only [List.set, List.map_cons, List.cons.injEq, true_and]
      exact ih j (fun b hb => h b (by simpa using hb))

lemma name_unique (items : List TreeItem) (hnd : (items.map TreeItem.name).Nodup)
    (i : Nat) (old : TreeItem) (hget : items[i]? = some old)
    (it : TreeItem) (hit : it ∈ items) (hn : it.name = old.name) : it = old := by
  obtain ⟨hi, hgi⟩ := List.getElem?_eq_some_iff.mp hget
  obtain ⟨j, hj, rfl⟩ := List.mem_iff_getElem.mp hit
  have hmi : i < (items.map TreeItem.name).length := by simpa using hi
  have hmj : j < (items.map TreeItem.name).length := by simpa using hj
  have heq : (items.map TreeItem.name)[j] = (items.map TreeItem.name)[i] := by
    simp only [List.getElem_map]
    rw [hgi, hn]
  have : j = i := (List.Nodup.getElem_inj_iff hnd).mp heq
  subst this
  exact hgi.symm ▸ rfl

lemma mem_checkedNames_set (items : List TreeItem) (i : Nat) (old new : TreeItem)
    (hget : items[i]? = some old) (hname : new.name = old.name)
    (hnd : (items.map TreeItem.name).Nodup) (n : String) :
    n ∈ checkedNames (items.set i new) ↔
      ((n = new.name ∧ (new.checked && !new.immutable) = true) ∨
       (n ≠ old.name ∧ n ∈ checkedNames items)) := by
  induction items generalizing i with
  | nil => simp at hget
  | cons x xs ih =>
    rw [List.map_cons, List.nodup_cons] at hnd
    have hxnotin : x.name ∉ xs.map TreeItem.name := hnd.1
    have hnd' : (xs.map TreeItem.name).Nodup := hnd.2
    cases i with
    | zero =>
      obtain rfl : x = old := by simpa using hget
      show n ∈ checkedNames (new :: xs) ↔ _
      rw [checkedNames_cons, checkedNames_cons]
      constructor
      · intro h
        rcases List.mem_append.mp h with h1 | h2
        · by_cases hp : (new.checked && !new.immutable) = true
          · rw [if_pos hp] at h1
            simp at h1
            exact Or.inl ⟨h1, hp⟩
          · rw [if_neg hp] at h1
            simp at h1
        · have hn : n ∈ xs.map TreeItem.name := mem_names_of_mem_checkedNames _ _ h2
          have hne : n ≠ x.name := fun he => hxnotin (he ▸ hn)
          exact Or.inr ⟨hne, List.mem_append.mpr (Or.inr h2)⟩
      · rintro (⟨rfl, hp⟩ | ⟨hne, hmem⟩)
        · exact List.mem_append.mpr (Or.inl (by rw [if_pos hp]; simp))
        · rcases List.mem_append.mp hmem with h1 | h2
          · by_cases hp : (x.checked && !x.immutable) = true
            · rw [if_pos hp] at h1
              simp at h1
              exact absurd h1 hne
            · rw [if_neg hp] at h1
              simp at h1
          · exact List.mem_append.mpr (Or.inr h2)
    | succ j =>
      have hget2 : xs[j]? = some old := by simpa using hget
      have hold_mem : old ∈ xs := List.getElem?_mem hget2
      have hold_name : old.name ∈ xs.map TreeItem.name :=
        List.mem_map.mpr ⟨old, hold_mem, rfl⟩
      have hxo : x.name ≠ old.name := fun he => hxnotin (he ▸ hold_name)
      show n ∈ checkedNames (x :: xs.set j new) ↔ _
      rw [checkedNames_cons, checkedNames_cons]
      rw [List.mem_append, List.mem_append, ih j hget2 hnd']
      constructor
      · rintro (h1 | h2 | h3)
        · by_cases hp : (x.checked && !x.immutable) = true
          · rw [if_pos hp] at h1
            simp at h1
            subst h1
            exact Or.inr ⟨hxo, Or.inl (by rw [if_pos hp]; simp)⟩
          · rw [if_neg hp] at h1
            simp at h1
        · exact Or.inl h2
        · exact Or.inr ⟨h3.1, Or.inr h3.2⟩
      · rintro (⟨rfl, hp⟩ | ⟨hne, hmem | hmem⟩)
        · exact Or.inr (Or.inl ⟨rfl, hp⟩)
        · by_cases hp : (x.checked && !x.immutable) = true
          · rw [if_pos hp] at hmem
            simp at hmem
            subst hmem
            exact Or.inl (by rw [if_pos hp]; simp)
          · rw [if_neg hp] at hmem
            simp at hmem
        · exact Or.inr (Or.inr ⟨hne, hmem⟩)

lemma buildChangeList_items (item : TreeItem) (s : WindowState) :
    (buildChangeList item s).items = s.items := by
  unfold buildChangeList
  by_cases h1 : (item.immutable && !item.checked) = true
  · rw [if_pos h1]
  · rw [if_neg h1]
    by_cases h2 : item.checked = true
    · rw [if_pos h2]
      dsimp only
      split <;> rfl
    · rw [if_neg h2]
      dsimp only
      split <;> rfl

lemma buildChangeList_cl_mutable (item : TreeItem) (s : WindowState)
    (h : item.immutable = false) :
    (buildChangeList item s).m_change_list =
      if item.checked = true then s.m_change_list ++ [item.name]
      else s.m_change_list.erase item.name := by
  unfold buildChangeList
  rw [if_neg (by rw [h]; simp)]
  by_cases h2 : item.checked = true
  · rw [if_pos h2, if_pos h2]
    dsimp only
    split <;> rfl
  · rw [if_neg h2, if_neg h2]
    dsimp only
    split <;> rfl

lemma checkUncheckItem_preserves (i : Nat) (s : WindowState)
    (hnd : (s.items.map TreeItem.name).Nodup)
    (himm : (s.items.map TreeItem.immutable)[i]? ≠ some true)
    (hinv : changeListMatchesChecked s) :
    (checkUncheckItem i s).items.map TreeItem.name = s.items.map TreeItem.name ∧
    (checkUncheckItem i s).items.map TreeItem.immutable = s.items.map TreeItem.immutable ∧
    changeListMatchesChecked (checkUncheckItem i s) := by
  unfold checkUncheckItem
  cases hitem : s.items[i]? with
  | none => exact ⟨rfl, rfl, hinv⟩
  | some old =>
    have hoimm : old.immutable = false := by
      rw [List.getElem?_map, hitem] at himm
      simpa using himm
    set new : TreeItem := { old with checked := !old.checked } with hnewdef
    have hname : new.name = old.name := rfl
    have hnimm : new.immutable = false := hoimm
    have hncdef : new.checked = !old.checked := rfl
    have hmapn : (s.items.set i new).map TreeItem.name = s.items.map TreeItem.name :=
      map_set_congr _ _ _ _ (fun b hb => by rw [hb] at hitem; cases hitem; rfl)
    have hmapi : (s.items.set i new).map TreeItem.immutable = s.items.map TreeItem.immutable :=
      map_set_congr _ _ _ _ (fun b hb => by rw [hb] at hitem; cases hitem; rfl)
    have hitems := buildChangeList_items new { s with items := s.items.set i new }
    refine ⟨by rw [hitems]; exact hmapn, by rw [hitems]; exact hmapi, ?_⟩
    have hcl := buildChangeList_cl_mutable new { s with items := s.items.set i new } hnimm
    obtain ⟨hclnd, hclmem⟩ := hinv
    constructor
    · -- the new change list has no duplicates
      rw [hcl]
      by_cases hc : new.checked = true
      · rw [if_pos hc]
        have hoc : old.checked = false := by
          rw [hncdef] at hc
          cases hob : old.checked
          · rfl
          · rw [hob] at hc; simp at hc
        have hnotin : new.name ∉ s.m_change_list := by
          intro hin
          obtain ⟨it, hitmem, hp, hitname⟩ :=
            (mem_checkedNames _ _).mp ((hclmem new.name).mp hin)
          have heq : it = old :=
            name_unique s.items hnd i old hitem it hitmem (by rw [hitname, hname])
          rw [heq, hoc] at hp
          simp at hp
        simp [List.nodup_append, hclnd, hnotin]
      · rw [if_neg hc]
        exact List.Nodup.erase _ hclnd
    · -- membership of the new change list matches the new checked set
      intro n
      rw [hcl]
      have hset := mem_checkedNames_set s.items i old new hitem hname hnd n
      show _ ↔ n ∈ checkedNonImmutable _
      unfold checkedNonImmutable
      rw [hitems]
      show _ ↔ n ∈ checkedNames (s.items.set i new)
      rw [hset]
      by_cases hc : new.checked = true
      · rw [if_pos hc]
        have hoc : old.checked = false := by
          rw [hncdef] at hc
          cases hob : old.checked
          · rfl
          · rw [hob] at hc; simp at hc
        have hpnew : (new.checked && !new.immutable) = true := by
          rw [hc, hnimm]; rfl
        constructor
        · intro hin
          rcases List.mem_append.mp hin with h1 | h2
          · by_cases hno : n = old.name
            · exfalso
              obtain ⟨it, hitmem, hp, hitname⟩ :=
                (mem_checkedNames _ _).mp ((hclmem n).mp h1)
              have heq : it = old :=
                name_unique s.items hnd i old hitem it hitmem (by rw [hitname, hno])
              rw [heq, hoc] at hp
              simp at hp
            · exact Or.inr ⟨hno, (hclmem n).mp h1⟩
          · have : n = new.name := by simpa using h2
            exact Or.inl ⟨this, hpnew⟩
        · rintro (⟨rfl, _⟩ | ⟨hne, hmem⟩)
          · exact List.mem_append.mpr (Or.inr (by simp))
          · exact List.mem_append.mpr (Or.inl ((hclmem n).mpr hmem))
      · rw [if_neg hc]
        have hpnew : (new.checked && !new.immutable) = false := by
          cases hnc : new.checked
          · rfl
          · exact absurd hnc hc
        rw [List.Nodup.mem_erase_iff hclnd, hpnew]
        constructor
        · rintro ⟨hne, hmem⟩
          exact Or.inr ⟨fun he => hne (by rw [he, hname]), (hclmem n).mp hmem⟩
        · rintro (⟨_, hfalse⟩ | ⟨hne, hmem⟩)
          · simp at hfalse
          · exact ⟨fun he => hne (by rw [← hname, he]), (hclmem n).mpr hmem⟩

lemma applyToggles_preserves (toggles : List Nat) (s : WindowState)
    (hnd : (s.items.map TreeItem.name).Nodup)
    (himm : ∀ j ∈ toggles, (s.items.map TreeItem.immutable)[j]? ≠ some true)
    (hinv : changeListMatchesChecked s) :
    changeListMatchesChecked (applyToggles s toggles) := by
  induction toggles generalizing s with
  | nil => exact hinv
  | cons t ts ih =>
    obtain ⟨hn, hi, hinv2⟩ :=
      checkUncheckItem_preserves t s hnd (himm t (List.mem_cons_self t ts)) hinv
    show changeListMatchesChecked (applyToggles (checkUncheckItem t s) ts)
    apply ih (checkUncheckItem t s) (by rw [hn]; exact hnd) ?_ hinv2
    intro j hj
    rw [hi]
    exact himm j (List.mem_cons_of_mem t hj)

/-- C2 (counterexample): starting from the initial state with one
installed kernel (whose tree item is immutable and pre-checked), the
single toggle sequence `[0]` unchecks it, and `buildChangeList` appends
it to the change list; the set of currently checked non-immutable items
is empty, so the claimed equality fails. -/
theorem C2_counterexample :
    ¬ changeListMatchesChecked (applyToggles (initState [sampleInstalledKernel]) [0]) := by
  intro h
  have h1 := (h.2 "linux-cachyos").mp (by decide)
  exact absurd h1 (by decide)

/-- C2 (amended): for every sequence of check/uncheck toggles that
touches only non-immutable kernel-list items, starting from the initial
state with pairwise-distinct package names, the change list built by
`buildChangeList` equals (as a duplicate-free set) the set of currently
checked, non-immutable items; toggling an immutable item instead appends
it to the change list each time it changes state. -/
theorem C2_change_list_matches_checked (kernels : List Kernel) (toggles : List Nat)
    (hnd : (kernels.map Kernel.raw).Nodup)
    (himm : ∀ j ∈ toggles,
      ((initState kernels).items.map TreeItem.immutable)[j]? ≠ some true) :
    changeListMatchesChecked (applyToggles (initState kernels) toggles) := by
  apply applyToggles_preserves toggles (initState kernels) ?_ himm ?_
  · have : (initState kernels).items.map TreeItem.name = kernels.map Kernel.raw := by
      show (kernels.map initItem).map TreeItem.name = kernels.map Kernel.raw
      rw [List.map_map]
      exact List.map_congr_left (fun k _ => initItem_name k)
    rw [this]
    exact hnd
  · constructor
    · exact List.nodup_nil
    · intro n
      show n ∈ ([] : List String) ↔ n ∈ checkedNonImmutable (initState kernels)
      unfold checkedNonImmutable
      show _ ↔ n ∈ checkedNames (kernels.map initItem)
      rw [checkedNames_initState]

/-- C2 (witness): the amended statement at one mutable kernel and a
single toggle. -/
theorem C2_change_list_matches_checked_witness :
    changeListMatchesChecked (applyToggles (initState [sampleFreeKernel]) [0]) :=
  C2_change_list_matches_checked [sampleFreeKernel] [0] (by decide) (by decide)
